import Mathlib

/-
Verification of the grid-kinematics and obstacle-avoidance core of the
MDP-Algo repository.  The definitions below are a shallow embedding of
`src/TaskTwoSimulation.py` (class `Simulation`: collision checking, the
forward/backward/turn primitives, the two avoidance maneuvers and the
scan-and-avoid loop `task2Algo`) together with the heading-transition
dictionaries of `src/simulation.py`.  Python integers become `Int`,
Python floor division `//` becomes `Int.fdiv`, the pygame rendering
calls (pure display side effects) are dropped, and the result codes
`1` / `-1` returned by the movement methods are kept as `Int` values
paired with the successor state.
-/

/-- The four chassis headings of `misc.direction.Direction`
(`TOP` = NORTH, `RIGHT` = EAST, `BOTTOM` = SOUTH, `LEFT` = WEST). -/
inductive Direction
  | TOP
  | RIGHT
  | BOTTOM
  | LEFT
deriving DecidableEq, Repr

/-- Motion primitives, used to record the steps a maneuver performs. -/
inductive Prim
  | Forward
  | Backward
  | TurnRight
  | TurnLeft
deriving DecidableEq, Repr

/-- An obstacle as stored by the simulation: `obstacle.position.x` and
`obstacle.position.y` in world units. -/
structure Obstacle where
  x : Int
  y : Int
deriving DecidableEq, Repr

/-- The mutable simulation state: `self.currentPos = (row, col, direction)`
plus the obstacle list `self.obstacles` (immutable during a run). -/
structure SimState where
  row : Int
  col : Int
  dir : Direction
  obstacles : List Obstacle
deriving DecidableEq, Repr

/-- The `movement = {"forward": 0}` dictionary threaded through
`task2Algo` and the avoidance maneuvers. -/
structure Movement where
  forward : Int
deriving DecidableEq, Repr

/-- The turn-table keys: `turn_type` in `_get_turn_positions_and_destination`.
The source dict uses the strings `'right'` and `'left'`. -/
inductive TurnType
  | right
  | left
deriving DecidableEq, Repr

/-- The turn-table keys: `direction_type`.  The source dict only contains
entries keyed by the string `'forward'`; `reverse` stands for any other
key value, which is absent from the table. -/
inductive TurnDir
  | forward
  | reverse
deriving DecidableEq, Repr

/-- Modelled from the spec: the numeric constants of the `constants` module
(`TASK2_LENGTH`, `GRID_CELL_LENGTH`, and the `TURN_MED_*_FORWARD`
turning-arc tuples) are imported by `TaskTwoSimulation.py` but the
`constants.py` file itself is not under `src/`; the spec says they are
"fixed physical turning-arc constants indexed by current heading" whose
values "must be preserved exactly, not re-derived".  They are therefore
kept as opaque parameters of the model. -/
structure Consts where
  taskLength : Int
  cellLen : Int
  turnMedForward : TurnType → Direction → Int × Int

/-- The world-to-grid transform applied to an obstacle inside
`_check_collision`:
`obstacle_y = (TASK2_LENGTH - GRID_CELL_LENGTH * 5 - obstacle.position.y) // GRID_CELL_LENGTH`,
`obstacle_x = obstacle.position.x // GRID_CELL_LENGTH`.
Returned as the (row, col) grid cell of the obstacle. -/
def obstacleCell (c : Consts) (o : Obstacle) : Int × Int :=
  (Int.fdiv (c.taskLength - c.cellLen * 5 - o.y) c.cellLen,
   Int.fdiv o.x c.cellLen)

/-- `_check_collision(check_positions)`: true iff some checked position
equals some obstacle's grid cell. -/
def check_collision (c : Consts) (obstacles : List Obstacle)
    (checkPositions : List (Int × Int)) : Bool :=
  checkPositions.any fun p =>
    obstacles.any fun o =>
      p.1 == (obstacleCell c o).1 && p.2 == (obstacleCell c o).2

/-- `_get_collision_positions_forward`: the three cells checked before a
forward step, two cells ahead of center in the current heading, spanning
the 3-cell-wide footprint (`range(a - 1, a + 2)` lists `a-1, a, a+1`). -/
def collision_positions_forward (s : SimState) : List (Int × Int) :=
  match s.dir with
  | .TOP => [(s.row - 2, s.col - 1), (s.row - 2, s.col), (s.row - 2, s.col + 1)]
  | .RIGHT => [(s.row - 1, s.col + 2), (s.row, s.col + 2), (s.row + 1, s.col + 2)]
  | .BOTTOM => [(s.row + 2, s.col - 1), (s.row + 2, s.col), (s.row + 2, s.col + 1)]
  | .LEFT => [(s.row - 1, s.col - 2), (s.row, s.col - 2), (s.row + 1, s.col - 2)]

/-- `_get_collision_positions_backward`: mirrored two cells behind. -/
def collision_positions_backward (s : SimState) : List (Int × Int) :=
  match s.dir with
  | .TOP => [(s.row + 2, s.col - 1), (s.row + 2, s.col), (s.row + 2, s.col + 1)]
  | .RIGHT => [(s.row - 1, s.col - 2), (s.row, s.col - 2), (s.row + 1, s.col - 2)]
  | .BOTTOM => [(s.row - 2, s.col - 1), (s.row - 2, s.col), (s.row - 2, s.col + 1)]
  | .LEFT => [(s.row - 1, s.col + 2), (s.row, s.col + 2), (s.row + 1, s.col + 2)]

/-- The candidate cell of the `direction_moves` dictionary in `moveForward`. -/
def forwardCell (s : SimState) : Int × Int :=
  match s.dir with
  | .TOP => (s.row - 1, s.col)
  | .RIGHT => (s.row, s.col + 1)
  | .BOTTOM => (s.row + 1, s.col)
  | .LEFT => (s.row, s.col - 1)

/-- The candidate cell of the `direction_moves` dictionary in `moveBackward`. -/
def backwardCell (s : SimState) : Int × Int :=
  match s.dir with
  | .TOP => (s.row + 1, s.col)
  | .RIGHT => (s.row, s.col - 1)
  | .BOTTOM => (s.row - 1, s.col)
  | .LEFT => (s.row, s.col + 1)

/-- The bounds test performed by `moveBackward`:
`0 <= new_position[0] * cell_size < grid_length and
 0 <= new_position[1] * cell_size < grid_width`. -/
def boundsOk (gridLength gridWidth cellSize r c : Int) : Prop :=
  0 ≤ r * cellSize ∧ r * cellSize < gridLength ∧
  0 ≤ c * cellSize ∧ c * cellSize < gridWidth

instance (gl gw cs r c : Int) : Decidable (boundsOk gl gw cs r c) := by
  unfold boundsOk
  infer_instance

/-- `moveForward(grid_length, grid_width, cell_size)`: check the forward
sweep band; on collision return `-1` with the state untouched; otherwise
commit the candidate cell (the source performs no bounds check here) and
return `1`.  The commit (`_execute_movement` / `set_position_task2`) is
modelled as the direct update of `currentPos`; the spec describes it as
the single mutation point committing the candidate as the new position. -/
def moveForward (c : Consts) (gridLength gridWidth cellSize : Int)
    (s : SimState) : Int × SimState :=
  if check_collision c s.obstacles (collision_positions_forward s) then
    (-1, s)
  else
    (1, { s with row := (forwardCell s).1, col := (forwardCell s).2 })

/-- `moveBackward(grid_length, grid_width, cell_size)`: check the backward
sweep band; on collision return `-1`; otherwise commit the candidate only
if it passes the bounds test, else return `-1` unchanged. -/
def moveBackward (c : Consts) (gridLength gridWidth cellSize : Int)
    (s : SimState) : Int × SimState :=
  if check_collision c s.obstacles (collision_positions_backward s) then
    (-1, s)
  else
    if boundsOk gridLength gridWidth cellSize (backwardCell s).1 (backwardCell s).2 then
      (1, { s with row := (backwardCell s).1, col := (backwardCell s).2 })
    else
      (-1, s)

/-- `_get_turn_positions_and_destination(turn_type, direction_type)`:
the dict `turn_constants` holds exactly the keys `('right', 'forward')`
and `('left', 'forward')`; each maps the current heading to a
`TURN_MED_*_FORWARD` offset tuple and the destination heading.  Any other
key is absent and the source returns `(None, None)`, modelled as `none`. -/
def get_turn_positions_and_destination (c : Consts) (turnType : TurnType)
    (dirType : TurnDir) (d : Direction) : Option ((Int × Int) × Direction) :=
  match dirType with
  | .reverse => none
  | .forward =>
    match turnType, d with
    | .right, .TOP => some (c.turnMedForward .right .TOP, .RIGHT)
    | .right, .RIGHT => some (c.turnMedForward .right .RIGHT, .BOTTOM)
    | .right, .BOTTOM => some (c.turnMedForward .right .BOTTOM, .LEFT)
    | .right, .LEFT => some (c.turnMedForward .right .LEFT, .TOP)
    | .left, .TOP => some (c.turnMedForward .left .TOP, .LEFT)
    | .left, .RIGHT => some (c.turnMedForward .left .RIGHT, .TOP)
    | .left, .BOTTOM => some (c.turnMedForward .left .BOTTOM, .RIGHT)
    | .left, .LEFT => some (c.turnMedForward .left .LEFT, .BOTTOM)

/-- The shared body of `turnRight` / `turnLeft` (which differ only in the
key passed to `_get_turn_positions_and_destination`): on a missing table
entry (`if not turn_offset: return -1`) return `-1` unchanged; otherwise
commit `(row - offset[1] // 10, col + offset[0] // 10)` with the new
heading and return `1` (no bounds or collision check in the source). -/
def turnMove (c : Consts) (turnType : TurnType) (dirType : TurnDir)
    (gridLength gridWidth cellSize : Int) (s : SimState) : Int × SimState :=
  match get_turn_positions_and_destination c turnType dirType s.dir with
  | none => (-1, s)
  | some (off, nd) =>
    (1, { s with row := s.row - Int.fdiv off.2 10,
                 col := s.col + Int.fdiv off.1 10,
                 dir := nd })

/-- `turnRight(grid_length, grid_width, cell_size)`. -/
def turnRight (c : Consts) (gridLength gridWidth cellSize : Int)
    (s : SimState) : Int × SimState :=
  turnMove c .right .forward gridLength gridWidth cellSize s

/-- `turnLeft(grid_length, grid_width, cell_size)`. -/
def turnLeft (c : Consts) (gridLength gridWidth cellSize : Int)
    (s : SimState) : Int × SimState :=
  turnMove c .left .forward gridLength gridWidth cellSize s

/-- `reverseTurnRight` in `TaskTwoSimulation.py` literally calls
`self.turnLeft(...)` ("simplified implementation"). -/
def reverseTurnRight (c : Consts) (gridLength gridWidth cellSize : Int)
    (s : SimState) : Int × SimState :=
  turnLeft c gridLength gridWidth cellSize s

/-- `reverseTurnLeft` in `TaskTwoSimulation.py` literally calls
`self.turnRight(...)`. -/
def reverseTurnLeft (c : Consts) (gridLength gridWidth cellSize : Int)
    (s : SimState) : Int × SimState :=
  turnRight c gridLength gridWidth cellSize s

/-- `new_directions` dictionary of `simulation.py::turnRight`. -/
def simTurnRightNewDir : Direction → Direction
  | .TOP => .RIGHT
  | .RIGHT => .BOTTOM
  | .BOTTOM => .LEFT
  | .LEFT => .TOP

/-- `new_directions` dictionary of `simulation.py::turnLeft`. -/
def simTurnLeftNewDir : Direction → Direction
  | .TOP => .LEFT
  | .RIGHT => .TOP
  | .BOTTOM => .RIGHT
  | .LEFT => .BOTTOM

/-- `new_directions` dictionary of `simulation.py::reverseTurnRight`. -/
def simReverseTurnRightNewDir : Direction → Direction
  | .TOP => .LEFT
  | .RIGHT => .TOP
  | .BOTTOM => .RIGHT
  | .LEFT => .BOTTOM

/-- `new_directions` dictionary of `simulation.py::reverseTurnLeft`. -/
def simReverseTurnLeftNewDir : Direction → Direction
  | .TOP => .RIGHT
  | .RIGHT => .BOTTOM
  | .BOTTOM => .LEFT
  | .LEFT => .TOP

/-- `left(movement)`: back up 3 times (each iteration also does
`movement["forward"] -= 1`), run the turn sequence
`[turnLeft, turnRight, turnRight, turnLeft]`, then
`movement["forward"] += 10`.  The display-refresh calls are dropped.
The third component records the primitives performed, in order. -/
def leftManeuver (c : Consts) (gl gw cs : Int) (s : SimState)
    (m : Movement) : SimState × Movement × List Prim :=
  let s1 := (moveBackward c gl gw cs s).2
  let m1 : Movement := ⟨m.forward - 1⟩
  let s2 := (moveBackward c gl gw cs s1).2
  let m2 : Movement := ⟨m1.forward - 1⟩
  let s3 := (moveBackward c gl gw cs s2).2
  let m3 : Movement := ⟨m2.forward - 1⟩
  let s4 := (turnLeft c gl gw cs s3).2
  let s5 := (turnRight c gl gw cs s4).2
  let s6 := (turnRight c gl gw cs s5).2
  let s7 := (turnLeft c gl gw cs s6).2
  (s7, ⟨m3.forward + 10⟩,
   [.Backward, .Backward, .Backward, .TurnLeft, .TurnRight, .TurnRight, .TurnLeft])

/-- `right(movement)`: the mirrored first-obstacle maneuver, with turn
sequence `[turnRight, turnLeft, turnLeft, turnRight]`. -/
def rightManeuver (c : Consts) (gl gw cs : Int) (s : SimState)
    (m : Movement) : SimState × Movement × List Prim :=
  let s1 := (moveBackward c gl gw cs s).2
  let m1 : Movement := ⟨m.forward - 1⟩
  let s2 := (moveBackward c gl gw cs s1).2
  let m2 : Movement := ⟨m1.forward - 1⟩
  let s3 := (moveBackward c gl gw cs s2).2
  let m3 : Movement := ⟨m2.forward - 1⟩
  let s4 := (turnRight c gl gw cs s3).2
  let s5 := (turnLeft c gl gw cs s4).2
  let s6 := (turnLeft c gl gw cs s5).2
  let s7 := (turnRight c gl gw cs s6).2
  (s7, ⟨m3.forward + 10⟩,
   [.Backward, .Backward, .Backward, .TurnRight, .TurnLeft, .TurnLeft, .TurnRight])

/-- Iterated `moveForward`, as done by the bounded `for` loops of
`secondleft` / `secondright` (results of the individual steps are
discarded by the source). -/
def forwardN (c : Consts) (gl gw cs : Int) : Nat → SimState → SimState
  | 0, s => s
  | n + 1, s => forwardN c gl gw cs n (moveForward c gl gw cs s).2

/-- `secondleft(movement)`: back up 2 times (each debiting the counter),
debit once more, turn `[turnLeft, turnRight, turnRight]`, move forward 5
times, `turnRight`, move forward `movement["forward"]` times (Python
`range` clamps a negative count to zero, modelled by `Int.toNat`), then
the closing `turnRight`, `turnLeft`.  The counter is not written after
the single extra debit. -/
def secondleftManeuver (c : Consts) (gl gw cs : Int) (s : SimState)
    (m : Movement) : SimState × Movement × List Prim :=
  let s1 := (moveBackward c gl gw cs s).2
  let m1 : Movement := ⟨m.forward - 1⟩
  let s2 := (moveBackward c gl gw cs s1).2
  let m2 : Movement := ⟨m1.forward - 1⟩
  let m3 : Movement := ⟨m2.forward - 1⟩
  let s3 := (turnLeft c gl gw cs s2).2
  let s4 := (turnRight c gl gw cs s3).2
  let s5 := (turnRight c gl gw cs s4).2
  let s6 := forwardN c gl gw cs 5 s5
  let s7 := (turnRight c gl gw cs s6).2
  let s8 := forwardN c gl gw cs m3.forward.toNat s7
  let s9 := (turnRight c gl gw cs s8).2
  let s10 := (turnLeft c gl gw cs s9).2
  (s10, m3,
   [.Backward, .Backward, .TurnLeft, .TurnRight, .TurnRight] ++
     List.replicate 5 .Forward ++ [.TurnRight] ++
     List.replicate m3.forward.toNat .Forward ++ [.TurnRight, .TurnLeft])

/-- `secondright(movement)`: the mirrored second-obstacle maneuver. -/
def secondrightManeuver (c : Consts) (gl gw cs : Int) (s : SimState)
    (m : Movement) : SimState × Movement × List Prim :=
  let s1 := (moveBackward c gl gw cs s).2
  let m1 : Movement := ⟨m.forward - 1⟩
  let s2 := (moveBackward c gl gw cs s1).2
  let m2 : Movement := ⟨m1.forward - 1⟩
  let m3 : Movement := ⟨m2.forward - 1⟩
  let s3 := (turnRight c gl gw cs s2).2
  let s4 := (turnLeft c gl gw cs s3).2
  let s5 := (turnLeft c gl gw cs s4).2
  let s6 := forwardN c gl gw cs 5 s5
  let s7 := (turnLeft c gl gw cs s6).2
  let s8 := forwardN c gl gw cs m3.forward.toNat s7
  let s9 := (turnLeft c gl gw cs s8).2
  let s10 := (turnRight c gl gw cs s9).2
  (s10, m3,
   [.Backward, .Backward, .TurnRight, .TurnLeft, .TurnLeft] ++
     List.replicate 5 .Forward ++ [.TurnLeft] ++
     List.replicate m3.forward.toNat .Forward ++ [.TurnLeft, .TurnRight])

/-- The scanning loop at the head of `task2Algo` (and repeated between the
maneuvers): `while True: result = moveForward(...)`; on `1` increment
`movement["forward"]` and continue, on `-1` break.  Fuel-indexed: `none`
means the loop has not terminated within the given number of iterations,
`some` carries the state and counter at the break. -/
def scanLoop (c : Consts) (gl gw cs : Int) :
    Nat → SimState → Movement → Option (SimState × Movement)
  | 0, _, _ => none
  | fuel + 1, s, m =>
    let r := moveForward c gl gw cs s
    if r.1 = 1 then
      scanLoop c gl gw cs fuel r.2 ⟨m.forward + 1⟩
    else
      if r.1 = -1 then some (r.2, m) else scanLoop c gl gw cs fuel r.2 m

/-- Concrete constants used for the closed scenario theorems:
`TASK2_LENGTH = 400` and `GRID_CELL_LENGTH = 10` (the source comments in
`reset` state "Task 2 grid is 400x150, so 40x15 cells"); the turning-arc
tuples are irrelevant to the scenarios and set to zero. -/
def c0 : Consts :=
  { taskLength := 400, cellLen := 10, turnMedForward := fun _ _ => (0, 0) }

/-- A 20-by-20-cell arena for the scenario theorems: with a cell size of
20 pixels, `grid_length = grid_width = 400` gives rows and cols `0..19`. -/
def glScenario : Int := 400

/-- The obstacle of the spec scenarios: world position `(100, 270)`, whose
grid cell under `c0` is `(row 8, col 10)`. -/
def obstacleScenario : Obstacle := ⟨100, 270⟩

/-- The scenario start state: robot at `(row 10, col 10)` heading NORTH
(`TOP`), with the single obstacle at grid cell `(8, 10)`. -/
def sScenario : SimState := ⟨10, 10, .TOP, [obstacleScenario]⟩

/-- Modelled from the spec (refinement comparison definition, §4.2): "the
3-cell-wide band of cells the chassis sweeps two cells ahead of center,
reflecting a 3×3 robot footprint, in the direction implied by heading":
the three cells two cells ahead of `(row, col)` along the heading axis,
spanning the perpendicular offsets −1, 0, +1. -/
def sweepBandForwardSpec (s : SimState) : List (Int × Int) :=
  match s.dir with
  | .TOP => [(s.row - 2, s.col - 1), (s.row - 2, s.col), (s.row - 2, s.col + 1)]
  | .RIGHT => [(s.row - 1, s.col + 2), (s.row, s.col + 2), (s.row + 1, s.col + 2)]
  | .BOTTOM => [(s.row + 2, s.col - 1), (s.row + 2, s.col), (s.row + 2, s.col + 1)]
  | .LEFT => [(s.row - 1, s.col - 2), (s.row, s.col - 2), (s.row + 1, s.col - 2)]

/-- Modelled from the spec (refinement comparison definition, §4.2): the
band mirrored two cells behind the robot's center. -/
def sweepBandBackwardSpec (s : SimState) : List (Int × Int) :=
  match s.dir with
  | .TOP => [(s.row + 2, s.col - 1), (s.row + 2, s.col), (s.row + 2, s.col + 1)]
  | .RIGHT => [(s.row - 1, s.col - 2), (s.row, s.col - 2), (s.row + 1, s.col - 2)]
  | .BOTTOM => [(s.row - 2, s.col - 1), (s.row - 2, s.col), (s.row - 2, s.col + 1)]
  | .LEFT => [(s.row - 1, s.col + 2), (s.row, s.col + 2), (s.row + 1, s.col + 2)]

lemma check_collision_nil (c : Consts) (ps : List (Int × Int)) :
    check_collision c [] ps = false := by
  induction ps with
  | nil => rfl
  | cons p ps ih => simpa [check_collision] using ih

lemma moveForward_obstacles (c : Consts) (gl gw cs : Int) (s : SimState) :
    ((moveForward c gl gw cs s).2).obstacles = s.obstacles := by
  unfold moveForward
  split <;> rfl

lemma moveBackward_dir (c : Consts) (gl gw cs : Int) (s : SimState) :
    ((moveBackward c gl gw cs s).2).dir = s.dir := by
  unfold moveBackward
  split
  · rfl
  · split <;> rfl

lemma turnLRRL_dir (c : Consts) (gl gw cs : Int) (s : SimState) :
    ((turnLeft c gl gw cs ((turnRight c gl gw cs ((turnRight c gl gw cs
      ((turnLeft c gl gw cs s).2)).2)).2)).2).dir = s.dir := by
  obtain ⟨r, cl, d, obs⟩ := s
  cases d <;> rfl

lemma turnRLLR_dir (c : Consts) (gl gw cs : Int) (s : SimState) :
    ((turnRight c gl gw cs ((turnLeft c gl gw cs ((turnLeft c gl gw cs
      ((turnRight c gl gw cs s).2)).2)).2)).2).dir = s.dir := by
  obtain ⟨r, cl, d, obs⟩ := s
  cases d <;> rfl

lemma turnRL_dir (c : Consts) (gl gw cs : Int) (s : SimState) :
    ((turnLeft c gl gw cs ((turnRight c gl gw cs s).2)).2).dir = s.dir := by
  obtain ⟨r, cl, d, obs⟩ := s
  cases d <;> rfl

lemma turnLR_dir (c : Consts) (gl gw cs : Int) (s : SimState) :
    ((turnRight c gl gw cs ((turnLeft c gl gw cs s).2)).2).dir = s.dir := by
  obtain ⟨r, cl, d, obs⟩ := s
  cases d <;> rfl

/-- C9: applying the TurnRight heading transition four times returns the
original heading, and likewise for TurnLeft — both for the turn
operations of `TaskTwoSimulation.py` (heading component of four chained
`turnRight` / `turnLeft` applications, for arbitrary turning-arc
constants) and for the `new_directions` dictionaries of `simulation.py`
(4-cycle NORTH→EAST→SOUTH→WEST→NORTH for a right turn). -/
theorem turn_heading_four_cycle (c : Consts) (gl gw cs : Int)
    (s : SimState) (d : Direction) :
    ((turnRight c gl gw cs ((turnRight c gl gw cs ((turnRight c gl gw cs
      ((turnRight c gl gw cs s).2)).2)).2)).2).dir = s.dir ∧
    ((turnLeft c gl gw cs ((turnLeft c gl gw cs ((turnLeft c gl gw cs
      ((turnLeft c gl gw cs s).2)).2)).2)).2).dir = s.dir ∧
    simTurnRightNewDir (simTurnRightNewDir (simTurnRightNewDir
      (simTurnRightNewDir d))) = d ∧
    simTurnLeftNewDir (simTurnLeftNewDir (simTurnLeftNewDir
      (simTurnLeftNewDir d))) = d := by
  obtain ⟨r, cl, dd, obs⟩ := s
  cases dd <;> cases d <;> exact ⟨rfl, rfl, rfl, rfl⟩

/-- C5: for every heading, ReverseTurnRight's heading transition equals
TurnLeft's and ReverseTurnLeft's equals TurnRight's — in
`TaskTwoSimulation.py` the reverse turns literally call the opposite
forward turn, and in `simulation.py` the `new_directions` dictionaries
coincide; in particular from heading EAST (`RIGHT`) both
ReverseTurnRight and TurnLeft yield NORTH (`TOP`). -/
theorem reverse_turn_heading_aliasing (c : Consts) (gl gw cs : Int)
    (s : SimState) (d : Direction) :
    simReverseTurnRightNewDir d = simTurnLeftNewDir d ∧
    simReverseTurnLeftNewDir d = simTurnRightNewDir d ∧
    reverseTurnRight c gl gw cs s = turnLeft c gl gw cs s ∧
    reverseTurnLeft c gl gw cs s = turnRight c gl gw cs s ∧
    simReverseTurnRightNewDir .RIGHT = .TOP ∧
    simTurnLeftNewDir .RIGHT = .TOP := by
  cases d <;> exact ⟨rfl, rfl, rfl, rfl, rfl, rfl⟩

/-- C1 (code-bug evidence): `moveForward` performs no bounds check and
commits an out-of-bounds candidate.  From the in-bounds position
(row 0, col 5, NORTH) on a 20-by-20-cell arena with no obstacles, a
single Forward step succeeds (returns 1) and commits row −1, violating
`0 ≤ row`. -/
theorem moveForward_commits_out_of_bounds :
    moveForward c0 glScenario glScenario 20 ⟨0, 5, .TOP, []⟩ =
      (1, ⟨-1, 5, .TOP, []⟩) ∧
    ¬ (0 ≤ (moveForward c0 glScenario glScenario 20 ⟨0, 5, .TOP, []⟩).2.row) := by
  decide

/-- C7 (counterexample): a (turn_type, direction_type) key absent from
the turn table does not raise any ConfigurationError — the lookup
returns `(None, None)` and the turn operation returns the ordinary
recoverable rejection `-1` with the position unchanged, the very value a
Blocked forward step returns. -/
theorem absent_turn_key_returns_recoverable :
    get_turn_positions_and_destination c0 .right .reverse .TOP = none ∧
    turnMove c0 .right .reverse glScenario glScenario 20 sScenario =
      (-1, sScenario) ∧
    moveForward c0 glScenario glScenario 20 sScenario = (-1, sScenario) := by
  decide

/-- C7 (amended): for every key absent from the turn table (every key
other than `('right', 'forward')` and `('left', 'forward')`, i.e. any
non-`forward` direction_type with either turn_type), the lookup returns
`(None, None)` and the turn operation returns the recoverable runtime
result `-1`, leaving the position unchanged; no ConfigurationError
exists in the code. -/
theorem absent_turn_key_behaviour (c : Consts) (tt : TurnType)
    (gl gw cs : Int) (s : SimState) :
    get_turn_positions_and_destination c tt .reverse s.dir = none ∧
    turnMove c tt .reverse gl gw cs s = (-1, s) :=
  ⟨rfl, rfl⟩

/-- C6: a Forward or Backward step whose sweep band hits an obstacle
returns the rejection `-1` as an ordinary value and leaves the current
position (row, col, heading) completely unchanged. -/
theorem blocked_step_returns_value_and_leaves_position
    (c : Consts) (gl gw cs : Int) (s : SimState) :
    (check_collision c s.obstacles (collision_positions_forward s) = true →
      moveForward c gl gw cs s = (-1, s)) ∧
    (check_collision c s.obstacles (collision_positions_backward s) = true →
      moveBackward c gl gw cs s = (-1, s)) := by
  constructor <;> intro h <;> simp [moveForward, moveBackward, h]

/-- Witness for C6: the robot at (10, 10) heading NORTH with the obstacle
at grid cell (8, 10) is Blocked going forward; heading SOUTH at the same
cell it is Blocked going backward; both leave the state unchanged. -/
theorem blocked_step_witness :
    moveForward c0 glScenario glScenario 20 sScenario = (-1, sScenario) ∧
    moveBackward c0 glScenario glScenario 20
        ⟨10, 10, .BOTTOM, [obstacleScenario]⟩ =
      (-1, ⟨10, 10, .BOTTOM, [obstacleScenario]⟩) :=
  ⟨(blocked_step_returns_value_and_leaves_position c0 glScenario glScenario 20
      sScenario).1 (by decide),
   (blocked_step_returns_value_and_leaves_position c0 glScenario glScenario 20
      ⟨10, 10, .BOTTOM, [obstacleScenario]⟩).2 (by decide)⟩

/-- C2: the collision check for a Forward step tests exactly the
3-cell-wide band two cells ahead of center (mirrored behind for
Backward), and the step is Blocked iff some obstacle's grid cell equals
a band cell; in the scenario — robot at (10, 10) heading NORTH, obstacle
at grid cell (8, 10) — the band is [(8,9), (8,10), (8,11)] and the
Forward step is Blocked with the position uncommitted. -/
theorem forward_collision_band_exact (c : Consts) (s : SimState) :
    collision_positions_forward s = sweepBandForwardSpec s ∧
    collision_positions_backward s = sweepBandBackwardSpec s ∧
    (check_collision c s.obstacles (collision_positions_forward s) = true ↔
      ∃ o ∈ s.obstacles, obstacleCell c o ∈ collision_positions_forward s) ∧
    collision_positions_forward sScenario = [(8, 9), (8, 10), (8, 11)] ∧
    obstacleCell c0 obstacleScenario = (8, 10) ∧
    moveForward c0 glScenario glScenario 20 sScenario = (-1, sScenario) := by
  obtain ⟨r, cl, d, obs⟩ := s
  refine ⟨by cases d <;> rfl, by cases d <;> rfl, ?_, by decide, by decide, by decide⟩
  simp only [check_collision, List.any_eq_true, Bool.and_eq_true, beq_iff_eq]
  constructor
  · rintro ⟨⟨p1, p2⟩, hp, o, ho, h1, h2⟩
    subst h1
    subst h2
    exact ⟨o, ho, by simpa using hp⟩
  · rintro ⟨o, ho, hmem⟩
    exact ⟨obstacleCell c o, hmem, o, ho, rfl, rfl⟩

/-- C3: the first-obstacle maneuver performs exactly 3 backward steps
(each debiting the forward credit by 1), then the fixed 4-turn sequence
(left variant TurnLeft, TurnRight, TurnRight, TurnLeft; right variant
mirrored), then credits +10; the heading is restored, and with credit 0
from (10, 10, NORTH) the left maneuver ends with heading NORTH and
credit 7. -/
theorem first_maneuver_credit_and_heading (c : Consts) (gl gw cs : Int)
    (s : SimState) (m : Movement) :
    (leftManeuver c gl gw cs s m).2.1.forward = m.forward - 3 + 10 ∧
    (rightManeuver c gl gw cs s m).2.1.forward = m.forward - 3 + 10 ∧
    (leftManeuver c gl gw cs s m).2.2 =
      [.Backward, .Backward, .Backward,
       .TurnLeft, .TurnRight, .TurnRight, .TurnLeft] ∧
    (rightManeuver c gl gw cs s m).2.2 =
      [.Backward, .Backward, .Backward,
       .TurnRight, .TurnLeft, .TurnLeft, .TurnRight] ∧
    (leftManeuver c gl gw cs s m).1.dir = s.dir ∧
    (rightManeuver c gl gw cs s m).1.dir = s.dir ∧
    (leftManeuver c0 glScenario glScenario 20 sScenario ⟨0⟩).1.dir = .TOP ∧
    (leftManeuver c0 glScenario glScenario 20 sScenario ⟨0⟩).2.1.forward = 7 := by
  refine ⟨by simp only [leftManeuver]; omega, by simp only [rightManeuver]; omega,
    rfl, rfl, ?_, ?_, by decide, by decide⟩
  · show ((turnLeft c gl gw cs ((turnRight c gl gw cs ((turnRight c gl gw cs
      ((turnLeft c gl gw cs ((moveBackward c gl gw cs ((moveBackward c gl gw cs
      ((moveBackward c gl gw cs s).2)).2)).2)).2)).2)).2)).2).dir = s.dir
    rw [turnLRRL_dir, moveBackward_dir, moveBackward_dir, moveBackward_dir]
  · show ((turnRight c gl gw cs ((turnLeft c gl gw cs ((turnLeft c gl gw cs
      ((turnRight c gl gw cs ((moveBackward c gl gw cs ((moveBackward c gl gw cs
      ((moveBackward c gl gw cs s).2)).2)).2)).2)).2)).2)).2).dir = s.dir
    rw [turnRLLR_dir, moveBackward_dir, moveBackward_dir, moveBackward_dir]

/-- C4: the second-obstacle maneuver performs, in order: 2 backward steps
debiting the credit by 1 each, one further debit (net −3), the fixed
3-turn sequence, exactly 5 forward steps, one turn, then exactly
forwardCreditOwed (its value at that point, m.forward − 3) further
forward steps, then 2 closing turns whose composition restores the
heading held before them (TurnRight then TurnLeft, and mirrored). -/
theorem second_maneuver_script (c : Consts) (gl gw cs : Int)
    (s : SimState) (m : Movement) (h : 0 ≤ m.forward - 3) :
    (secondleftManeuver c gl gw cs s m).2.1.forward = m.forward - 3 ∧
    (secondrightManeuver c gl gw cs s m).2.1.forward = m.forward - 3 ∧
    (secondleftManeuver c gl gw cs s m).2.2 =
      [.Backward, .Backward, .TurnLeft, .TurnRight, .TurnRight] ++
        List.replicate 5 .Forward ++ [.TurnRight] ++
        List.replicate (m.forward - 3).toNat .Forward ++
        [.TurnRight, .TurnLeft] ∧
    (secondrightManeuver c gl gw cs s m).2.2 =
      [.Backward, .Backward, .TurnRight, .TurnLeft, .TurnLeft] ++
        List.replicate 5 .Forward ++ [.TurnLeft] ++
        List.replicate (m.forward - 3).toNat .Forward ++
        [.TurnLeft, .TurnRight] ∧
    ((m.forward - 3).toNat : Int) = m.forward - 3 ∧
    (∀ s' : SimState,
      ((turnLeft c gl gw cs ((turnRight c gl gw cs s').2)).2).dir = s'.dir) ∧
    (∀ s' : SimState,
      ((turnRight c gl gw cs ((turnLeft c gl gw cs s').2)).2).dir = s'.dir) := by
  have h3 : m.forward - 1 - 1 - 1 = m.forward - 3 := by omega
  refine ⟨by simp only [secondleftManeuver]; omega,
    by simp only [secondrightManeuver]; omega, ?_, ?_,
    Int.toNat_of_nonneg h, turnRL_dir c gl gw cs, turnLR_dir c gl gw cs⟩
  · simp only [secondleftManeuver]
    rw [h3]
  · simp only [secondrightManeuver]
    rw [h3]

/-- Witness for C4: with the credit entering at 10, the second-left
maneuver leaves the credit at 7 = 10 − 3 and its value is the exact
count of credit-consuming forward steps. -/
theorem second_maneuver_script_witness :
    0 ≤ (10 : Int) - 3 ∧
    (secondleftManeuver c0 glScenario glScenario 20 sScenario ⟨10⟩).2.1.forward =
      (10 : Int) - 3 :=
  ⟨by decide,
   (second_maneuver_script c0 glScenario glScenario 20 sScenario ⟨10⟩
      (by decide)).1⟩

/-- C8 (counterexample): Backward then Forward is not the identity at the
arena boundary.  On a 20-by-20-cell arena with no obstacles, from
(row 19, col 10, NORTH) the Backward candidate row 20 is rejected
out-of-bounds (position stays at row 19), and the following Forward step
commits row 18: the composition does not return the original position. -/
theorem backward_forward_not_inverse_at_boundary :
    ((moveForward c0 glScenario glScenario 20
        ((moveBackward c0 glScenario glScenario 20 ⟨19, 10, .TOP, []⟩).2)).2) ≠
      ⟨19, 10, .TOP, []⟩ := by
  decide

/-- C8 (amended): with no obstacles, and when both the position itself
and its backward neighbour pass the `moveBackward` bounds test, Forward
then Backward and Backward then Forward each return the exact original
position (row, col) and heading. -/
theorem forward_backward_roundtrip (c : Consts) (gl gw cs : Int)
    (s : SimState) (hobs : s.obstacles = [])
    (hs : boundsOk gl gw cs s.row s.col)
    (hb : boundsOk gl gw cs (backwardCell s).1 (backwardCell s).2) :
    (moveBackward c gl gw cs ((moveForward c gl gw cs s).2)).2 = s ∧
    (moveForward c gl gw cs ((moveBackward c gl gw cs s).2)).2 = s := by
  obtain ⟨r, cl, d, obs⟩ := s
  simp only at hobs
  subst hobs
  cases d <;>
    simp_all [moveForward, moveBackward, forwardCell, backwardCell,
      check_collision_nil, sub_add_cancel, add_sub_cancel_right]

/-- Witness for C8 (amended): round trips from the interior position
(10, 10, NORTH) on the 20-by-20-cell arena. -/
theorem forward_backward_roundtrip_witness :
    (moveBackward c0 glScenario glScenario 20
        ((moveForward c0 glScenario glScenario 20 ⟨10, 10, .TOP, []⟩).2)).2 =
      ⟨10, 10, .TOP, []⟩ ∧
    (moveForward c0 glScenario glScenario 20
        ((moveBackward c0 glScenario glScenario 20 ⟨10, 10, .TOP, []⟩).2)).2 =
      ⟨10, 10, .TOP, []⟩ :=
  forward_backward_roundtrip c0 glScenario glScenario 20 ⟨10, 10, .TOP, []⟩
    rfl (by decide) (by decide)

/-- C10: if no obstacle's grid cell ever coincides with a forward sweep
band, every Forward step succeeds and returns 1 (Forward has no
out-of-bounds rejection), so the scan loop of `task2Algo` never reaches
its break: for every fuel bound it is still running (`none`). -/
theorem scan_loop_never_terminates (c : Consts) (gl gw cs : Int)
    (obs : List Obstacle)
    (H : ∀ s' : SimState,
      check_collision c obs (collision_positions_forward s') = false) :
    ∀ (fuel : Nat) (s : SimState) (m : Movement), s.obstacles = obs →
      (moveForward c gl gw cs s).1 = 1 ∧
      scanLoop c gl gw cs fuel s m = none := by
  intro fuel
  induction fuel with
  | zero =>
    intro s m hs
    exact ⟨by simp [moveForward, hs, H s], rfl⟩
  | succ n ih =>
    intro s m hs
    have h1 : (moveForward c gl gw cs s).1 = 1 := by simp [moveForward, hs, H s]
    refine ⟨h1, ?_⟩
    have hobs : ((moveForward c gl gw cs s).2).obstacles = obs := by
      rw [moveForward_obstacles, hs]
    simp only [scanLoop, h1, if_pos]
    exact (ih ((moveForward c gl gw cs s).2) ⟨m.forward + 1⟩ hobs).2

/-- Witness for C10: with an empty obstacle set, the forward step from
(10, 10, NORTH) returns 1 and the scan loop is still running after any
concrete number of iterations (here 4). -/
theorem scan_loop_never_terminates_witness :
    (moveForward c0 glScenario glScenario 20 ⟨10, 10, .TOP, []⟩).1 = 1 ∧
    scanLoop c0 glScenario glScenario 20 4 ⟨10, 10, .TOP, []⟩ ⟨0⟩ = none :=
  scan_loop_never_terminates c0 glScenario glScenario 20 []
    (fun s' => check_collision_nil c0 (collision_positions_forward s'))
    4 ⟨10, 10, .TOP, []⟩ ⟨0⟩ rfl
